import Mathlib

/-!
# Verification of the telegram-food-bot core (src/bot.py)

Shallow embedding of the in-scope core of `bot.py`:

* the link catalog (`CATEGORY_QUERIES`, `build_snappfood_link`,
  `build_inline_pairs`) including Python's `urllib.parse.quote_plus`
  percent-encoding of UTF-8 bytes;
* the geo resolver `reverse_geocode`, with the HTTP interaction modelled
  as an explicit outcome value (the function into which the outcome is fed
  is total, mirroring the `try/except` that converts every failure into
  the sentinel pair);
* the location store (`save_user_location`, `get_user_location`), with the
  SQLite `users` table modelled as a list of rows and the
  `INSERT ... ON CONFLICT(user_id) DO UPDATE` upsert modelled as
  replace-first-match-or-append.

Python floats are modelled as rationals (`ℚ`): the code never computes
with latitude/longitude, it only stores and returns them, so any value
type with decidable equality is faithful.
-/

namespace FoodBot

/-! ## Config (bot.py lines 64-76) -/

def BASE_WEB : String := "https://snappfood.ir"

/-- The fixed 5-entry category mapping `CATEGORY_QUERIES` of bot.py,
as an association list in source order. -/
def CATEGORY_QUERIES : List (String × String) :=
  [("pizza", "پیتزا"),
   ("kebab", "کباب"),
   ("burger", "برگر"),
   ("sandwich", "ساندویچ"),
   ("irani", "ایرانی")]

/-- Python `dict.get(key, default)` on an association list:
the value of the first matching key, else the default. -/
def dictGet (d : List (String × String)) (k : String) (dflt : String) : String :=
  match d.find? (fun kv => kv.1 == k) with
  | some kv => kv.2
  | none => dflt

/-! ## UTF-8 and `urllib.parse.quote_plus` -/

/-- UTF-8 encoding of a Unicode code point, as a list of byte values. -/
def utf8EncodeChar (c : Nat) : List Nat :=
  if c < 0x80 then [c]
  else if c < 0x800 then
    [0xC0 + c / 64, 0x80 + c % 64]
  else if c < 0x10000 then
    [0xE0 + c / 4096, 0x80 + (c / 64) % 64, 0x80 + c % 64]
  else
    [0xF0 + c / 262144, 0x80 + (c / 4096) % 64, 0x80 + (c / 64) % 64, 0x80 + c % 64]

/-- UTF-8 byte sequence of a string. -/
def utf8Bytes (s : String) : List Nat :=
  s.data.flatMap (fun ch => utf8EncodeChar ch.toNat)

/-- Uppercase hexadecimal digit for a value `< 16`, as Python's
percent-encoder emits it. -/
def hexDigit (n : Nat) : Char :=
  if n < 10 then Char.ofNat (48 + n) else Char.ofNat (55 + n)

/-- Bytes that `urllib.parse.quote` never escapes: ASCII letters, digits,
and `_ . - ~`. -/
def quoteSafeByte (b : Nat) : Bool :=
  (48 ≤ b && b ≤ 57) || (65 ≤ b && b ≤ 90) || (97 ≤ b && b ≤ 122) ||
  b == 95 || b == 46 || b == 45 || b == 126

/-- Percent-encode one UTF-8 byte the way `quote_plus` does:
safe bytes pass through, a space becomes `+`, everything else becomes
`%XX` with uppercase hex. -/
def quotePlusByte (b : Nat) : List Char :=
  if quoteSafeByte b then [Char.ofNat b]
  else if b == 32 then ['+']
  else ['%', hexDigit (b / 16), hexDigit (b % 16)]

/-- Python `urllib.parse.quote_plus`: percent-encode the UTF-8 bytes of a
string for use in a URL query component. -/
def quote_plus (s : String) : String :=
  String.mk ((utf8Bytes s).flatMap quotePlusByte)

/-! ## Link builder (bot.py lines 168-188) -/

/-- `build_snappfood_link` of bot.py: look up the category's localized
query (empty string for an unknown key) and splice its `quote_plus`
encoding into the fixed search URL. The `city` parameter is accepted and
ignored, exactly as in the source. -/
def build_snappfood_link (category_key : String) (city : Option String := none) : String :=
  let _ := city
  let q := dictGet CATEGORY_QUERIES category_key ""
  BASE_WEB ++ "/search?query=" ++ quote_plus q

/-- `build_inline_pairs` of bot.py: the fixed 5-entry list of
(label, url) pairs, in source order. -/
def build_inline_pairs (city : Option String := none) : List (String × String) :=
  [("🍕 پیتزا ارزان", build_snappfood_link "pizza" city),
   ("🍖 کباب ارزان", build_snappfood_link "kebab" city),
   ("🍔 برگر ارزان", build_snappfood_link "burger" city),
   ("🥪 ساندویچ ارزان", build_snappfood_link "sandwich" city),
   ("🍽 ایرانی ارزان", build_snappfood_link "irani" city)]

/-- `p` is a leading substring of `s` (string comparison on the
underlying character lists). -/
def strStartsWith (p s : String) : Bool :=
  p.data.isPrefixOf s.data

/-! ## Standard query-component decoding (for the round-trip property) -/

/-- Value of one hexadecimal digit character, upper or lower case. -/
def hexVal (c : Char) : Option Nat :=
  let n := c.toNat
  if 48 ≤ n && n ≤ 57 then some (n - 48)
  else if 65 ≤ n && n ≤ 70 then some (n - 55)
  else if 97 ≤ n && n ≤ 102 then some (n - 87)
  else none

/-- Standard `application/x-www-form-urlencoded` decoding of a query
component into its byte sequence: `+` is a space, `%XX` is the byte with
hex value `XX`, any other character stands for its own code point (which
must be an ASCII byte). -/
def percentDecode : List Char → Option (List Nat)
  | [] => some []
  | '+' :: rest => (percentDecode rest).map (fun bs => 32 :: bs)
  | '%' :: h :: l :: rest =>
    match hexVal h, hexVal l with
    | some hv, some lv => (percentDecode rest).map (fun bs => (16 * hv + lv) :: bs)
    | _, _ => none
  | c :: rest =>
    if c.toNat < 128 then (percentDecode rest).map (fun bs => c.toNat :: bs)
    else none

/-- Is `b` a UTF-8 continuation byte (`10xxxxxx`)? -/
def isCont (b : Nat) : Bool := 128 ≤ b && b < 192

/-- Decode a UTF-8 byte sequence into code points; `none` on any
malformed sequence. -/
def utf8Decode : List Nat → Option (List Nat)
  | [] => some []
  | b :: rest =>
    if b < 0x80 then
      (utf8Decode rest).map (fun cs => b :: cs)
    else if b < 0xC0 then none
    else if b < 0xE0 then
      match rest with
      | b1 :: rest1 =>
        if isCont b1 then
          (utf8Decode rest1).map (fun cs => ((b - 0xC0) * 64 + (b1 - 0x80)) :: cs)
        else none
      | _ => none
    else if b < 0xF0 then
      match rest with
      | b1 :: b2 :: rest2 =>
        if isCont b1 && isCont b2 then
          (utf8Decode rest2).map
            (fun cs => ((b - 0xE0) * 4096 + (b1 - 0x80) * 64 + (b2 - 0x80)) :: cs)
        else none
      | _ => none
    else if b < 0xF8 then
      match rest with
      | b1 :: b2 :: b3 :: rest3 =>
        if isCont b1 && isCont b2 && isCont b3 then
          (utf8Decode rest3).map
            (fun cs => ((b - 0xF0) * 262144 + (b1 - 0x80) * 4096 +
                        (b2 - 0x80) * 64 + (b3 - 0x80)) :: cs)
        else none
      | _ => none
    else none

/-- Drop a literal leading character sequence, or fail. -/
def dropLeading : List Char → List Char → Option (List Char)
  | [], s => some s
  | p :: ps, c :: cs => if p = c then dropLeading ps cs else none
  | _ :: _, [] => none

/-- Extract the query component of a generated search URL (everything
after the fixed `<base>/search?query=` head) and decode it back to text:
percent-decoding to bytes, then UTF-8 decoding to code points. -/
def decodeQueryOfLink (url : String) : Option String :=
  match dropLeading (BASE_WEB ++ "/search?query=").data url.data with
  | none => none
  | some enc =>
    match percentDecode enc with
    | none => none
    | some bytes =>
      match utf8Decode bytes with
      | none => none
      | some cps => some (String.mk (cps.map Char.ofNat))

/-! ## Geo resolver (bot.py lines 138-164)

`reverse_geocode` runs one `requests.get` against the Nominatim reverse
endpoint inside a `try/except Exception` that converts every failure into
`("", "")`.  The HTTP interaction is modelled as an explicit outcome:

* `netFailure` — `requests.get` itself raised (connection error, timeout);
* `response status body` — a response object was returned;
  `r.raise_for_status()` then raises exactly when `400 ≤ status < 600`,
  and `body = none` models `r.json()` raising on a malformed or missing
  JSON body.

The JSON shape is the one the code reads: an optional top-level
`display_name` string and an optional nested `address` object with
optional `city`/`town`/`county`/`state` string fields.  Absent fields are
`none`; a present field holds its string, possibly empty — Python's
`or`-chain treats an empty string the same as an absent one. -/

/-- The nested `address` component object of a Nominatim response. -/
structure GeoAddress where
  city : Option String
  town : Option String
  county : Option String
  state : Option String
  deriving DecidableEq

/-- A parsed Nominatim JSON body, restricted to the fields the code
reads. -/
structure GeoJson where
  display_name : Option String
  address : Option GeoAddress
  deriving DecidableEq

/-- Outcome of the single HTTP interaction performed by
`reverse_geocode`. -/
inductive HttpOutcome where
  /-- `requests.get` raised: connection error, DNS failure, timeout. -/
  | netFailure
  /-- A response with this status code; `body = none` means `r.json()`
  raised (malformed or missing JSON body). -/
  | response (status : Nat) (body : Option GeoJson)
  deriving DecidableEq

/-- Python `x or y` on an optional string `x`: `y` when `x` is `None` or
the empty string (falsy), else the string itself. -/
def pyOr (x : Option String) (y : String) : String :=
  match x with
  | none => y
  | some s => if s = "" then y else s

/-- The empty dict default of `data.get("address", {})`: every field
absent. -/
def emptyGeoAddress : GeoAddress := ⟨none, none, none, none⟩

/-- `reverse_geocode` of bot.py over an explicit HTTP outcome.  The
latitude/longitude arguments only parameterize the request and never
influence how a given outcome is turned into a result, exactly as in the
source.  Totality of this function is the embedding of the
`try/except Exception` wrapper: no outcome raises. -/
def reverse_geocode (lat lon : ℚ) (o : HttpOutcome) : String × String :=
  let _ := (lat, lon)
  match o with
  | .netFailure => ("", "")
  | .response status body =>
    if 400 ≤ status ∧ status < 600 then ("", "")
    else
      match body with
      | none => ("", "")
      | some data =>
        let address := pyOr data.display_name ""
        let comp := data.address.getD emptyGeoAddress
        let city := pyOr comp.city (pyOr comp.town (pyOr comp.county (pyOr comp.state "")))
        (city, address)

/-! ## Location store (bot.py lines 80-134)

The SQLite `users` table is modelled as a list of rows.  The
`user_id INTEGER PRIMARY KEY` column makes the key unique; the
`INSERT ... ON CONFLICT(user_id) DO UPDATE SET ...` statement, which
overwrites every non-key column from the excluded row, is modelled as
replacing the (first) row with the same key, or appending when there is
none.  `city` and `address` are nullable TEXT columns, hence
`Option String` in the row; `save_user_location` always writes real
strings, but `get_user_location` guards with `row[2] or ""` /
`row[3] or ""` against NULL (and other falsy) values. -/

/-- One row of the `users` table. -/
structure UserRow where
  user_id : Int
  lat : ℚ
  lon : ℚ
  city : Option String
  address : Option String
  updated_at : Int
  deriving DecidableEq

/-- The `users` table. -/
abbrev UsersTable := List UserRow

/-- Upsert keyed on `user_id`: replace the first row with the same key
entirely, or append the new row. -/
def upsertRow (r : UserRow) : UsersTable → UsersTable
  | [] => [r]
  | r' :: t => if r'.user_id = r.user_id then r :: t else r' :: upsertRow r t

/-- `save_user_location` of bot.py: full upsert of the row for
`user_id`, stamping `updated_at` (the `int(time.time())` call is the
explicit `ts` argument). -/
def save_user_location (user_id : Int) (lat lon : ℚ) (city address : String)
    (ts : Int) (t : UsersTable) : UsersTable :=
  upsertRow ⟨user_id, lat, lon, some city, some address, ts⟩ t

/-- `SELECT ... WHERE user_id=?` followed by `fetchone()`: the first row
with the key, if any. -/
def findRow (user_id : Int) : UsersTable → Option UserRow
  | [] => none
  | r :: t => if r.user_id = user_id then some r else findRow user_id t

/-- `get_user_location` of bot.py: point lookup returning
`(lat, lon, city or "", address or "")`, or `None` when no row exists. -/
def get_user_location (user_id : Int) (t : UsersTable) :
    Option (ℚ × ℚ × String × String) :=
  match findRow user_id t with
  | none => none
  | some r => some (r.lat, r.lon, pyOr r.city "", pyOr r.address "")

/-- One recorded call to `save_user_location`. -/
structure SaveOp where
  user_id : Int
  lat : ℚ
  lon : ℚ
  city : String
  address : String
  ts : Int
  deriving DecidableEq

/-- Run a sequence of `save_user_location` calls against a table. -/
def runSaves (t : UsersTable) (ops : List SaveOp) : UsersTable :=
  ops.foldl (fun t op => save_user_location op.user_id op.lat op.lon op.city op.address op.ts t) t

/-- Number of rows in the table carrying the given key. -/
def rowCount (user_id : Int) (t : UsersTable) : Nat :=
  (t.filter (fun r => r.user_id == user_id)).length

/-! ## Claim-side definitions -/

/-- The HTTP interactions on which the code's try/except fires: the
request itself raised, the status is in the 4xx/5xx range that
`raise_for_status` rejects, or the body is not valid JSON. -/
def httpFailed (o : HttpOutcome) : Bool :=
  match o with
  | .netFailure => true
  | .response status body => (400 ≤ status && status < 600) || body.isNone

/-- The first string in the list that is present and non-empty, or the
empty string when there is none: the value Python's
falsiness-based or-chain selects. -/
def firstNonEmpty : List (Option String) → String
  | [] => ""
  | none :: rest => firstNonEmpty rest
  | some s :: rest => if s = "" then firstNonEmpty rest else s

/-- The city-extraction rule spelled by the claim's words: try the
fields in strict priority order and return the first one that is
PRESENT (whatever its value), with the empty string only when none of
them is present. -/
def claimPresenceCity (comp : GeoAddress) : String :=
  match comp.city with
  | some s => s
  | none =>
    match comp.town with
    | some s => s
    | none =>
      match comp.county with
      | some s => s
      | none =>
        match comp.state with
        | some s => s
        | none => ""

/-! ## Helper lemmas -/

theorem pyOr_empty (x : Option String) : pyOr x "" = x.getD "" := by
  cases x with
  | none => rfl
  | some s =>
    by_cases h : s = ""
    · simp [pyOr, h]
    · simp [pyOr, h]

theorem pyOr_firstNonEmpty (a : Option String) (rest : List (Option String)) :
    pyOr a (firstNonEmpty rest) = firstNonEmpty (a :: rest) := by
  cases a with
  | none => rfl
  | some s => rfl

theorem pyOrChain_eq_firstNonEmpty (c t cn st : Option String) :
    pyOr c (pyOr t (pyOr cn (pyOr st ""))) = firstNonEmpty [c, t, cn, st] := by
  rw [show ("" : String) = firstNonEmpty [] from rfl, pyOr_firstNonEmpty,
      pyOr_firstNonEmpty, pyOr_firstNonEmpty, pyOr_firstNonEmpty]

theorem strStartsWith_append (p r : String) : strStartsWith p (p ++ r) = true := by
  simp [strStartsWith, String.data_append, List.isPrefixOf_iff_prefix]

theorem strStartsWith_append2 (p a b : String) : strStartsWith p (p ++ a ++ b) = true := by
  simp [strStartsWith, String.data_append, List.append_assoc, List.isPrefixOf_iff_prefix]

theorem dictGet_of_not_mem (d : List (String × String)) (k dflt : String)
    (h : k ∉ d.map Prod.fst) : dictGet d k dflt = dflt := by
  have hf : d.find? (fun kv => kv.1 == k) = none := by
    apply List.find?_eq_none.mpr
    intro kv hkv
    simp only [beq_iff_eq]
    intro hk
    exact h (List.mem_map.mpr ⟨kv, hkv, hk⟩)
  simp [dictGet, hf]

theorem rowCount_nil (uid : Int) : rowCount uid [] = 0 := rfl

theorem rowCount_cons (uid : Int) (r : UserRow) (t : UsersTable) :
    rowCount uid (r :: t) = rowCount uid t + (if r.user_id = uid then 1 else 0) := by
  by_cases h : r.user_id = uid <;> simp [rowCount, List.filter_cons, h]

theorem rowCount_upsertRow_ne (uid : Int) (r : UserRow) (h : r.user_id ≠ uid) :
    ∀ t : UsersTable, rowCount uid (upsertRow r t) = rowCount uid t := by
  intro t
  induction t with
  | nil => simp [upsertRow, rowCount_cons, rowCount_nil, h]
  | cons r' t ih =>
    by_cases h' : r'.user_id = r.user_id
    · have hr' : r'.user_id ≠ uid := by rw [h']; exact h
      simp [upsertRow, h', rowCount_cons, h, hr']
    · simp [upsertRow, h', rowCount_cons, ih]

theorem rowCount_upsertRow_le (uid : Int) (r : UserRow) :
    ∀ t : UsersTable, rowCount uid t ≤ 1 → rowCount uid (upsertRow r t) ≤ 1 := by
  intro t
  induction t with
  | nil =>
    intro _
    rw [show upsertRow r [] = [r] from rfl, rowCount_cons, rowCount_nil]
    split
    · exact le_refl 1
    · exact Nat.zero_le 1
  | cons r' t ih =>
    intro hle
    rw [rowCount_cons] at hle
    by_cases h' : r'.user_id = r.user_id
    · rw [show upsertRow r (r' :: t) = r :: t from by simp [upsertRow, h'], rowCount_cons]
      by_cases hr : r.user_id = uid
      · have hr' : r'.user_id = uid := by rw [h', hr]
        simp [hr, hr'] at hle ⊢
        omega
      · simp [hr] at hle ⊢
        omega
    · rw [show upsertRow r (r' :: t) = r' :: upsertRow r t from by simp [upsertRow, h'],
          rowCount_cons]
      by_cases hr' : r'.user_id = uid
      · have hrne : r.user_id ≠ uid := fun hh => h' (hr'.trans hh.symm)
        rw [rowCount_upsertRow_ne uid r hrne t]
        simp [hr'] at hle ⊢
        omega
      · simp [hr'] at hle ⊢
        exact ih hle

theorem rowCount_runSaves_le (ops : List SaveOp) :
    ∀ t : UsersTable, (∀ uid, rowCount uid t ≤ 1) →
      ∀ uid, rowCount uid (runSaves t ops) ≤ 1 := by
  induction ops with
  | nil => intro t ht uid; exact ht uid
  | cons op ops ih =>
    intro t ht uid
    exact ih _ (fun uid => rowCount_upsertRow_le uid _ t (ht uid)) uid

theorem findRow_upsertRow_self (r : UserRow) :
    ∀ t : UsersTable, findRow r.user_id (upsertRow r t) = some r := by
  intro t
  induction t with
  | nil => simp [upsertRow, findRow]
  | cons r' t ih =>
    by_cases h' : r'.user_id = r.user_id
    · simp [upsertRow, h', findRow]
    · simp [upsertRow, h', findRow, ih]

theorem findRow_upsertRow_ne (uid : Int) (r : UserRow) (h : uid ≠ r.user_id) :
    ∀ t : UsersTable, findRow uid (upsertRow r t) = findRow uid t := by
  intro t
  induction t with
  | nil => simp [upsertRow, findRow, Ne.symm h]
  | cons r' t ih =>
    by_cases h' : r'.user_id = r.user_id
    · have hr' : r'.user_id ≠ uid := by rw [h']; exact Ne.symm h
      simp [upsertRow, h', findRow, Ne.symm h, hr']
    · simp [upsertRow, h', findRow, ih]

theorem findRow_runSaves_ne (uid : Int) :
    ∀ ops : List SaveOp, (∀ op ∈ ops, op.user_id ≠ uid) →
      ∀ t : UsersTable, findRow uid (runSaves t ops) = findRow uid t := by
  intro ops
  induction ops with
  | nil => intro _ t; rfl
  | cons op ops ih =>
    intro h t
    have h1 : op.user_id ≠ uid := h op (List.mem_cons_self op ops)
    have h2 : ∀ o ∈ ops, o.user_id ≠ uid := fun o ho => h o (List.mem_cons_of_mem _ ho)
    show findRow uid
        (runSaves (save_user_location op.user_id op.lat op.lon op.city op.address op.ts t) ops) =
      findRow uid t
    rw [ih h2]
    exact findRow_upsertRow_ne uid _ (Ne.symm h1) t

/-! ## Claim theorems -/

/-- Claim C1, counterexample.  The claim counts every non-2xx HTTP status
as a failure that yields the sentinel pair, but reverse_geocode only
treats the 4xx/5xx range that raise_for_status rejects as a failure: a
301 response carrying a well-formed JSON body is parsed normally, so the
result is ("Tehran", "X"), not ("", ""). -/
theorem reverse_geocode_non2xx_cex :
    reverse_geocode 35 51
        (HttpOutcome.response 301 (some ⟨some "X", some ⟨some "Tehran", none, none, none⟩⟩)) =
      ("Tehran", "X") ∧
    ("Tehran", "X") ≠ (("" : String), ("" : String)) := by
  decide

/-- Claim C1, amended.  For every latitude/longitude input, when the HTTP
interaction fails in any of the ways the try/except can see — the request
raised (network error or timeout), the status is in the 4xx/5xx range
rejected by raise_for_status, or the JSON body is malformed or missing —
reverse_geocode returns ("", "").  Statuses outside the 400-599 range are
treated as success.  No exception escapes: the embedded function is total
on every outcome. -/
theorem reverse_geocode_failure_sentinel (lat lon : ℚ) (o : HttpOutcome)
    (h : httpFailed o = true) : reverse_geocode lat lon o = ("", "") := by
  cases o with
  | netFailure => rfl
  | response status body =>
    simp only [httpFailed, Bool.or_eq_true, Bool.and_eq_true, decide_eq_true_eq,
      Option.isNone_iff_eq_none] at h
    rcases h with ⟨h1, h2⟩ | h
    · simp [reverse_geocode, h1, h2]
    · subst h
      by_cases hc : 400 ≤ status ∧ status < 600 <;> simp [reverse_geocode, hc]

/-- Witness for the amended claim C1 at a concrete failing outcome. -/
theorem reverse_geocode_failure_sentinel_witness :
    httpFailed HttpOutcome.netFailure = true ∧
    reverse_geocode 0 0 HttpOutcome.netFailure = ("", "") :=
  ⟨rfl, reverse_geocode_failure_sentinel 0 0 HttpOutcome.netFailure rfl⟩

/-- Claim C2, counterexample.  The claim's extraction rule ("the first
PRESENT field among city, town, county, state; empty string only when
none is present") predicts the city "" when the city field is present
but empty; the code's falsiness-based or-chain skips the empty string
and returns the town "Qom" instead. -/
theorem reverse_geocode_presence_cex :
    claimPresenceCity ⟨some "", some "Qom", none, none⟩ = "" ∧
    reverse_geocode 35 51
        (HttpOutcome.response 200
          (some ⟨some "Addr, Qom, Iran", some ⟨some "", some "Qom", none, none⟩⟩)) =
      ("Qom", "Addr, Qom, Iran") ∧
    "Qom" ≠ "" := by
  decide

/-- Claim C2, amended.  On a successful geocoding response,
reverse_geocode extracts display_name as the address (empty string if
absent) and extracts the city as the first PRESENT AND NON-EMPTY value
among the city, town, county and state fields of the nested address
object, in that priority order; a present-but-empty field is skipped
like an absent one, and the empty string is returned when no field is
present and non-empty. -/
theorem reverse_geocode_success_extraction (lat lon : ℚ) (status : Nat) (data : GeoJson)
    (h : ¬ (400 ≤ status ∧ status < 600)) :
    reverse_geocode lat lon (HttpOutcome.response status (some data)) =
      (firstNonEmpty [(data.address.getD emptyGeoAddress).city,
                      (data.address.getD emptyGeoAddress).town,
                      (data.address.getD emptyGeoAddress).county,
                      (data.address.getD emptyGeoAddress).state],
       data.display_name.getD "") := by
  simp only [reverse_geocode, if_neg h]
  rw [pyOrChain_eq_firstNonEmpty, pyOr_empty]

/-- Witness for the amended claim C2 at a concrete successful response. -/
theorem reverse_geocode_success_extraction_witness :
    ¬ (400 ≤ 200 ∧ 200 < 600) ∧
    reverse_geocode 35 51
        (HttpOutcome.response 200
          (some ⟨some "Some Address, Tehran, Iran", some ⟨some "Tehran", none, none, none⟩⟩)) =
      ("Tehran", "Some Address, Tehran, Iran") :=
  ⟨by decide,
   reverse_geocode_success_extraction 35 51 200
     ⟨some "Some Address, Tehran, Iran", some ⟨some "Tehran", none, none, none⟩⟩ (by decide)⟩

/-- Claim C3: starting from the freshly created table, any sequence of
save_user_location calls leaves at most one row per user identifier, and
a save for an identifier fully replaces that identifier's row — its
latitude, longitude, city, address and timestamp all come from the new
write, never from a merge with the old values. -/
theorem save_user_location_upsert_invariant :
    (∀ (ops : List SaveOp) (uid : Int), rowCount uid (runSaves [] ops) ≤ 1) ∧
    (∀ (t : UsersTable) (uid : Int) (lat lon : ℚ) (city address : String) (ts : Int),
      findRow uid (save_user_location uid lat lon city address ts t) =
        some ⟨uid, lat, lon, some city, some address, ts⟩) := by
  constructor
  · intro ops uid
    exact rowCount_runSaves_le ops [] (fun uid => by rw [rowCount_nil]; exact Nat.zero_le 1) uid
  · intro t uid lat lon city address ts
    exact findRow_upsertRow_self ⟨uid, lat, lon, some city, some address, ts⟩ t

/-- Claim C4: for every table state, user identifier and stored tuple,
save_user_location followed by get_user_location with the same identifier
returns exactly the stored (lat, lon, city, address). -/
theorem save_then_get_roundtrip (t : UsersTable) (uid : Int) (lat lon : ℚ)
    (city address : String) (ts : Int) :
    get_user_location uid (save_user_location uid lat lon city address ts t) =
      some (lat, lon, city, address) := by
  have h := findRow_upsertRow_self (⟨uid, lat, lon, some city, some address, ts⟩ : UserRow) t
  simp [get_user_location, save_user_location, h, pyOr_empty]

/-- Claim C5: for an identifier never written by any save in the
sequence, get_user_location returns none — absence is a value, not an
error (the embedded lookup is total). -/
theorem get_user_location_absent (ops : List SaveOp) (uid : Int)
    (h : ∀ op ∈ ops, op.user_id ≠ uid) :
    get_user_location uid (runSaves [] ops) = none := by
  have hf : findRow uid (runSaves [] ops) = findRow uid [] := findRow_runSaves_ne uid ops h []
  simp [get_user_location, hf, findRow]

/-- Witness for claim C5: one save for user 1, lookup of user 2. -/
theorem get_user_location_absent_witness :
    (∀ op ∈ ([⟨1, 0, 0, "c", "a", 5⟩] : List SaveOp), op.user_id ≠ 2) ∧
    get_user_location 2 (runSaves [] [⟨1, 0, 0, "c", "a", 5⟩]) = none :=
  ⟨by decide, get_user_location_absent [⟨1, 0, 0, "c", "a", 5⟩] 2 (by decide)⟩

/-- Claim C10: whenever a row exists for the identifier, the city and
address components returned by get_user_location are the stored strings
with NULL (and the empty string itself) collapsed to the empty string —
never a null value. -/
theorem get_user_location_null_to_empty (t : UsersTable) (uid : Int) (r : UserRow)
    (h : findRow uid t = some r) :
    get_user_location uid t = some (r.lat, r.lon, r.city.getD "", r.address.getD "") := by
  simp [get_user_location, h, pyOr_empty]

/-- Witness for claim C10 on a row whose city and address are NULL. -/
theorem get_user_location_null_to_empty_witness :
    findRow 7 [(⟨7, 1, 2, none, none, 0⟩ : UserRow)] = some ⟨7, 1, 2, none, none, 0⟩ ∧
    get_user_location 7 [(⟨7, 1, 2, none, none, 0⟩ : UserRow)] = some (1, 2, "", "") :=
  ⟨by decide,
   get_user_location_null_to_empty [⟨7, 1, 2, none, none, 0⟩] 7 ⟨7, 1, 2, none, none, 0⟩
     (by decide)⟩

/-- Claim C6: for every city hint (including none), build_inline_pairs
returns exactly the 5 labelled pairs, in the fixed order pizza, kebab,
burger, sandwich, cuisine-general, each URL being build_snappfood_link of
the corresponding key, and every URL starts with the fixed base. -/
theorem build_inline_pairs_spec (city : Option String) :
    build_inline_pairs city =
      [("🍕 پیتزا ارزان", build_snappfood_link "pizza" city),
       ("🍖 کباب ارزان", build_snappfood_link "kebab" city),
       ("🍔 برگر ارزان", build_snappfood_link "burger" city),
       ("🥪 ساندویچ ارزان", build_snappfood_link "sandwich" city),
       ("🍽 ایرانی ارزان", build_snappfood_link "irani" city)] ∧
    (build_inline_pairs city).length = 5 ∧
    ∀ p ∈ build_inline_pairs city, strStartsWith BASE_WEB p.2 = true := by
  refine ⟨rfl, rfl, ?_⟩
  intro p hp
  simp only [build_inline_pairs, List.mem_cons, List.not_mem_nil, or_false] at hp
  rcases hp with h | h | h | h | h <;> subst h <;>
    exact strStartsWith_append2 BASE_WEB "/search?query=" _

/-- Witness for claim C6 at city hint none, checking the first pair. -/
theorem build_inline_pairs_spec_witness :
    ("🍕 پیتزا ارزان", build_snappfood_link "pizza" none) ∈ build_inline_pairs none ∧
    strStartsWith BASE_WEB (build_snappfood_link "pizza" none) = true :=
  ⟨by decide,
   (build_inline_pairs_spec none).2.2 ("🍕 پیتزا ارزان", build_snappfood_link "pizza" none)
     (by decide)⟩

/-- Claim C7: for every category key and city hint, build_snappfood_link
is the fixed base followed by /search?query= followed by the
percent-encoded looked-up query, and an unknown key yields the empty
query, so the URL is exactly the base search URL ending in query=. -/
theorem build_snappfood_link_spec (k : String) (c : Option String) :
    build_snappfood_link k c =
      BASE_WEB ++ "/search?query=" ++ quote_plus (dictGet CATEGORY_QUERIES k "") ∧
    strStartsWith (BASE_WEB ++ "/search?query=") (build_snappfood_link k c) = true ∧
    (k ∉ CATEGORY_QUERIES.map Prod.fst →
      build_snappfood_link k c = "https://snappfood.ir/search?query=") := by
  refine ⟨rfl, ?_, ?_⟩
  · exact strStartsWith_append (BASE_WEB ++ "/search?query=")
      (quote_plus (dictGet CATEGORY_QUERIES k ""))
  · intro h
    show BASE_WEB ++ "/search?query=" ++ quote_plus (dictGet CATEGORY_QUERIES k "") =
      "https://snappfood.ir/search?query="
    rw [dictGet_of_not_mem CATEGORY_QUERIES k "" h]
    rfl

/-- Witness for claim C7 at the unknown key "unknown". -/
theorem build_snappfood_link_spec_witness :
    ("unknown" ∉ CATEGORY_QUERIES.map Prod.fst) ∧
    build_snappfood_link "unknown" none = "https://snappfood.ir/search?query=" :=
  ⟨by decide, (build_snappfood_link_spec "unknown" none).2.2 (by decide)⟩

/-- Claim C8: the city hint influences neither build_snappfood_link nor
build_inline_pairs — any two hint values (including absence) produce
identical output. -/
theorem cityHint_no_effect (k : String) (c c' : Option String) :
    build_snappfood_link k c = build_snappfood_link k c' ∧
    build_inline_pairs c = build_inline_pairs c' :=
  ⟨rfl, rfl⟩

/-- Claim C9: for every entry of the fixed category mapping, decoding the
query component of the generated URL (percent-decoding to bytes, then
UTF-8 decoding) recovers the localized query text exactly. -/
theorem quote_plus_roundtrip :
    ∀ kv ∈ CATEGORY_QUERIES, decodeQueryOfLink (build_snappfood_link kv.1 none) = some kv.2 := by
  decide

/-- Witness for claim C9 at the pizza entry. -/
theorem quote_plus_roundtrip_witness :
    ("pizza", "پیتزا") ∈ CATEGORY_QUERIES ∧
    decodeQueryOfLink (build_snappfood_link "pizza" none) = some "پیتزا" :=
  ⟨by decide, quote_plus_roundtrip ("pizza", "پیتزا") (by decide)⟩

end FoodBot
